import Mathlib

/-!
Shallow embedding of the `Option`/`Either` error-handling core and the
`SimpleRNG` generator of the fp_book_club_ts repository.

Sources embedded:
* `src/fpbookclub/error_handling/option.ts` — the `OptionBase` class:
  `map` and `getOrElse` are implemented; `filter`, `flatMap` and `orElse`
  throw `Error("Not implemented")`.
* `src/site/src/chapter_4.md` — the reference answers to Exercises 4.1–4.7:
  full implementations of `filter`/`flatMap`/`orElse`, the free functions
  `map2`, `sequence`, `traverse` for `Option`, the `Either` type with
  `map`/`flatMap`/`orElse`/`map2`/`sequence`/`traverse`, and the `Try`
  exception-to-value adapters.
* `src/fpbookclub/state/RNG.ts` — `SimpleRNG.nextInt`.

Thrown exceptions are embedded as `Except` values; caller-supplied thunks are
`Unit →` functions, and laziness contracts ("the thunk is never invoked") are
settled against instrumented transcriptions that additionally count how many
times the code's branch containing the thunk call runs.
-/

namespace FPTS

/-- The `Option<A>` sum type of `option.ts` / chapter 4:
`Some(value)` with tag `"some"`, or `None` with tag `"none"`. -/
inductive Option (A : Type) where
  | some (value : A)
  | none
deriving DecidableEq, Repr

/-- Smart constructor `some(a)` of chapter 4. -/
def some {A : Type} (a : A) : Option A := Option.some a

/-- Smart constructor `none()` of chapter 4; returns the `None` singleton
(`NONE` in `option.ts`). Singleton identity carries no payload, so the bare
constructor is a faithful model. -/
def none {A : Type} : Option A := Option.none

/-- `OptionBase.map` from `src/fpbookclub/error_handling/option.ts`
(lines 17–20), identical to the Exercise 4.1 answer:
`if (this.tag === "none") return NONE; return new Some(f(this.value));` -/
def Option.map {A B : Type} : Option A → (A → B) → Option B
  | Option.none, _ => Option.none
  | Option.some v, f => Option.some (f v)

/-- `OptionBase.getOrElse` from `src/fpbookclub/error_handling/option.ts`
(lines 12–15), identical in behaviour to the Exercise 4.1 answer:
`if (this.tag === "some") return this.value; return onEmpty();` -/
def Option.getOrElse {A : Type} : Option A → (Unit → A) → A
  | Option.some v, _ => v
  | Option.none, onEmpty => onEmpty ()

/-- `OptionBase.flatMap` from the Exercise 4.1 answer in
`src/site/src/chapter_4.md`:
`return this.map(f).getOrElse(() => none());` -/
def Option.flatMap {A B : Type} (o : Option A) (f : A → Option B) : Option B :=
  (o.map f).getOrElse (fun _ => none)

/-- `OptionBase.filter` from the Exercise 4.1 answer in
`src/site/src/chapter_4.md`:
`return this.flatMap(a => p(a) ? some(a) : none());` -/
def Option.filter {A : Type} (o : Option A) (p : A → Bool) : Option A :=
  o.flatMap (fun a => if p a then some a else none)

/-- `OptionBase.orElse` from the Exercise 4.1 answer in
`src/site/src/chapter_4.md`:
`return this.map(a => some(a)).getOrElse(() => ou());` -/
def Option.orElse {A : Type} (o : Option A) (ou : Unit → Option A) : Option A :=
  (o.map (fun a => some a)).getOrElse (fun _ => ou ())

/-- Instrumented transcription of `OptionBase.map`: same result, paired with
the number of times the code invokes `f` (the `Some` branch is the only one
containing a call of `f`, and it calls `f` once). -/
def mapCount {A B : Type} : Option A → (A → B) → Option B × Nat
  | Option.none, _ => (Option.none, 0)
  | Option.some v, f => (Option.some (f v), 1)

/-- Instrumented transcription of `OptionBase.getOrElse`: same result, paired
with the number of times the code invokes the `onEmpty` thunk (the `None`
branch is the only one containing a thunk call, and it calls it once). -/
def getOrElseCount {A : Type} : Option A → (Unit → A) → A × Nat
  | Option.some v, _ => (v, 0)
  | Option.none, onEmpty => (onEmpty (), 1)

/-- Instrumented transcription of the Exercise 4.1 `flatMap`: the result of
`this.map(f).getOrElse(() => none())` paired with the number of invocations
of `f`; `f` is only ever invoked by the inner `map`. -/
def flatMapCount {A B : Type} (o : Option A) (f : A → Option B) : Option B × Nat :=
  let m := mapCount o f
  (m.1.getOrElse (fun _ => none), m.2)

/-- Instrumented transcription of the Exercise 4.1 `orElse`: the result of
`this.map(a => some(a)).getOrElse(() => ou())` paired with the number of
invocations of `ou`; `ou` is invoked exactly when the `getOrElse` thunk
`() => ou()` is invoked. -/
def orElseCount {A : Type} (o : Option A) (ou : Unit → Option A) : Option A × Nat :=
  getOrElseCount (o.map (fun a => some a)) (fun u => ou u)

/-- `OptionBase.filter` as shipped in `src/fpbookclub/error_handling/option.ts`
(lines 4–6): `throw new Error("Not implemented");` for every input.
The raised fault is embedded as an `Except.error` carrying the message. -/
def OptionBase.filter {A : Type} : Option A → (A → Bool) → Except String (Option A) :=
  fun _ _ => Except.error "Not implemented"

/-- `OptionBase.flatMap` as shipped in `src/fpbookclub/error_handling/option.ts`
(lines 8–10): `throw new Error("Not implemented");` for every input. -/
def OptionBase.flatMap {A B : Type} : Option A → (A → Option B) → Except String (Option B) :=
  fun _ _ => Except.error "Not implemented"

/-- `OptionBase.orElse` as shipped in `src/fpbookclub/error_handling/option.ts`
(lines 22–24): `throw new Error("Not implemented");` for every input. -/
def OptionBase.orElse {A : Type} : Option A → (Unit → Option A) → Except String (Option A) :=
  fun _ _ => Except.error "Not implemented"

/-- `OptionBase.getOrElse` as shipped in `src/fpbookclub/error_handling/option.ts`
(lines 12–15): implemented, never throws, so every result is `Except.ok`. -/
def OptionBase.getOrElse {A : Type} : Option A → (Unit → A) → Except String A
  | Option.some v, _ => Except.ok v
  | Option.none, onEmpty => Except.ok (onEmpty ())

/-- `OptionBase.map` as shipped in `src/fpbookclub/error_handling/option.ts`
(lines 17–20): implemented, never throws, so every result is `Except.ok`. -/
def OptionBase.map {A B : Type} : Option A → (A → B) → Except String (Option B)
  | Option.none, _ => Except.ok Option.none
  | Option.some v, f => Except.ok (Option.some (f v))

/-- Modelled from the spec: the generic ordered-sequence type with a
right-fold. Chapter 4 uses the chapter-3 `List` module (`Nil`/`Cons`,
`foldRight(ls, seed, f)`), which is not under `src/`; the spec assumes "a
generic ordered-sequence type supporting at least construction from literal
elements, right-fold, and order-preserving traversal". Lean's cons-lists
with the standard right fold model it. -/
def foldRight {A B : Type} (ls : List A) (seed : B) (f : A → B → B) : B :=
  match ls with
  | [] => seed
  | a :: as => f a (foldRight as seed f)

/-- `map2` for `Option`, from the Exercise 4.3 answer in
`src/site/src/chapter_4.md`: `oa.flatMap(a => ob.map(b => f(a, b)))`. -/
def Option.map2 {A B C : Type} (oa : Option A) (ob : Option B) (f : A → B → C) :
    Option C :=
  oa.flatMap (fun a => ob.map (fun b => f a b))

/-- `sequence` for `Option`, from the Exercise 4.4 answer in
`src/site/src/chapter_4.md`: `none()` on the empty list, otherwise
`foldRight(ls, some(List()), (oa, ol) => map2(ol, oa, (la, a) => new Cons(a, la)))`. -/
def Option.sequence {A : Type} (ls : List (Option A)) : Option (List A) :=
  match ls with
  | [] => none
  | _ :: _ =>
    foldRight ls (some []) (fun oa ol => Option.map2 ol oa (fun la a => a :: la))

/-- The fold inside the Exercise 4.5 `traverse` answer:
`foldRight(ls, some(List()), (a, ol) => map2(ol, f(a), (la, b) => new Cons(b, la)))`. -/
def Option.traverseGo {A B : Type} (ls : List A) (f : A → Option B) :
    Option (List B) :=
  foldRight ls (some []) (fun a ol => Option.map2 ol (f a) (fun la b => b :: la))

/-- `traverse` for `Option`, from the Exercise 4.5 answer in
`src/site/src/chapter_4.md`: `none()` on the empty list, otherwise the fold
`Option.traverseGo`. -/
def Option.traverse {A B : Type} (ls : List A) (f : A → Option B) :
    Option (List B) :=
  match ls with
  | [] => none
  | _ :: _ => Option.traverseGo ls f

/-- The `Either<E, A>` sum type of chapter 4: `Left(value)` with tag `"left"`
or `Right(value)` with tag `"right"`; right-biased. -/
inductive Either (E A : Type) where
  | left (value : E)
  | right (value : A)
deriving DecidableEq, Repr

/-- Smart constructor `left(val)` of chapter 4. -/
def left {E A : Type} (e : E) : Either E A := Either.left e

/-- Smart constructor `right(val)` of chapter 4. -/
def right {E A : Type} (a : A) : Either E A := Either.right a

/-- `EitherBase.flatMap` from the Exercise 4.6 answer in
`src/site/src/chapter_4.md`:
`if (this.tag === "left") return left(this.value); return f(this.value);` -/
def Either.flatMap {E A B : Type} : Either E A → (A → Either E B) → Either E B
  | Either.left e, _ => left e
  | Either.right a, f => f a

/-- `EitherBase.map` from the Exercise 4.6 answer in
`src/site/src/chapter_4.md`: `return this.flatMap(a => right(f(a)));` -/
def Either.map {E A B : Type} (e : Either E A) (f : A → B) : Either E B :=
  e.flatMap (fun a => right (f a))

/-- `EitherBase.orElse` from the Exercise 4.6 answer in
`src/site/src/chapter_4.md`:
`if (this.tag === "left") return b(); return this;` -/
def Either.orElse {E A : Type} : Either E A → (Unit → Either E A) → Either E A
  | Either.left _, b => b ()
  | Either.right a, _ => Either.right a

/-- `map2` for `Either`, from the Exercise 4.6 answer in
`src/site/src/chapter_4.md`: `e1.flatMap(a => e2.map(b => f(a, b)))`. -/
def Either.map2 {E A B C : Type} (e1 : Either E A) (e2 : Either E B)
    (f : A → B → C) : Either E C :=
  e1.flatMap (fun a => e2.map (fun b => f a b))

/-- `traverse` for `Either`, from the Exercise 4.7 answer in
`src/site/src/chapter_4.md`:
`aa.foldRight(right(List()), (a, elb) => map2(f(a), elb, (b, lb) => cons(b, lb)))`
— note: no empty-list check, so the fold's seed `right(List())` is returned
on empty input. -/
def Either.traverse {E A B : Type} (aa : List A) (f : A → Either E B) :
    Either E (List B) :=
  foldRight aa (right []) (fun a elb => Either.map2 (f a) elb (fun b lb => b :: lb))

/-- `sequence` for `Either`, from the Exercise 4.7 answer in
`src/site/src/chapter_4.md`: `traverse(le, ea => ea)`. -/
def Either.sequence {E A : Type} (le : List (Either E A)) : Either E (List A) :=
  Either.traverse le (fun ea => ea)

/-- A value thrown by JavaScript code: either an `Error` object (carrying its
descriptive `message`) or any other value (modelled by its string
representation `String(e)`, which `new Error(e)` would use as the message).
Models the `e instanceof Error` test in chapter 4's `Try` for `Either`. -/
inductive Thrown where
  | errObj (message : String)
  | nonError (stringRep : String)
deriving DecidableEq, Repr

/-- A JavaScript `Error` object, modelled by its descriptive `message`. -/
structure Error where
  message : String
deriving DecidableEq, Repr

/-- The descriptive information of a thrown value: an `Error`'s own message,
or the string form of a non-`Error` value. -/
def Thrown.info : Thrown → String
  | Thrown.errObj m => m
  | Thrown.nonError s => s

/-- `Try` for `Option` from `src/site/src/chapter_4.md` (§"Converting
exception-based APIs to `Option`"):
`try { return some(f()); } catch (e) { return none(); }`.
A possibly-throwing thunk is embedded as `Unit → Except Thrown A`. -/
def Option.Try {A : Type} (f : Unit → Except Thrown A) : Option A :=
  match f () with
  | Except.ok a => some a
  | Except.error _ => none

/-- `Try` for `Either` from `src/site/src/chapter_4.md` (§"Converting
exception-based APIs to `Either`"):
`try { return right(f()); } catch (e) { if (e instanceof Error) return left(e);
else return left(new Error(e)); }`. -/
def Either.Try {A : Type} (f : Unit → Except Thrown A) : Either Error A :=
  match f () with
  | Except.ok a => right a
  | Except.error e =>
    match e with
    | Thrown.errObj m => left (Error.mk m)
    | Thrown.nonError s => left (Error.mk s)

/-- The traverse contract in the spec's words, as structural recursion:
"result is None iff at least one f(x) is None, else Some of the transformed
sequence in original order" — the empty sequence having no failing element
yields `Some([])` here. Used to compare `Option.traverse` against the spec. -/
def traverseSpec {A B : Type} : List A → (A → Option B) → Option (List B)
  | [], _ => Option.some []
  | a :: as, f =>
    match traverseSpec as f, f a with
    | Option.some la, Option.some b => Option.some (b :: la)
    | _, _ => Option.none

/-- `BigInt.asIntN(w, x)`: the unique integer congruent to `x` modulo `2^w`
lying in `[-2^(w-1), 2^(w-1))`. `Int.emod` with a positive modulus returns the
nonnegative residue, so this formula realises the wrap-around exactly. -/
def asIntN (w : Nat) (x : Int) : Int :=
  (x + 2 ^ (w - 1)) % 2 ^ w - 2 ^ (w - 1)

/-- BigInt `x & 0xffffffffffffn`: bitwise AND with the 48-bit mask. On
arbitrary-precision two's-complement integers, AND-ing with `2^48 - 1` keeps
the low 48 bits as a nonnegative value, i.e. the nonnegative residue of `x`
modulo `2^48`. -/
def bigAnd48 (x : Int) : Int := x % 2 ^ 48

/-- BigInt `x >> kn`: arithmetic right shift, i.e. floor division by `2^k`;
`Int.ediv` by a positive divisor is floor division. -/
def bigShr (x : Int) (k : Nat) : Int := x / 2 ^ k

/-- The `SimpleRNG` class of `src/fpbookclub/state/RNG.ts`: a single readonly
`seed` field of JavaScript `bigint` type. -/
structure SimpleRNG where
  seed : Int
deriving DecidableEq, Repr

/-- The `SimpleRNG` constructor: `this.seed = BigInt.asIntN(64, seed);`. -/
def SimpleRNG.make (seed : Int) : SimpleRNG := ⟨asIntN 64 seed⟩

/-- `SimpleRNG.nextInt` from `src/fpbookclub/state/RNG.ts` (lines 13–18):
```
const newSeed = BigInt.asIntN(64, this.seed * 0x5deece66dn + 0xbn) & 0xffffffffffffn;
const nextRNG = new SimpleRNG(newSeed);
const n = Number(BigInt.asIntN(32, newSeed >> 16n));
return [n, nextRNG];
```
`Number` on an integer of magnitude below `2^31` is exact, so it is the
identity here. -/
def SimpleRNG.nextInt (r : SimpleRNG) : Int × SimpleRNG :=
  let newSeed : Int := bigAnd48 (asIntN 64 (r.seed * 0x5deece66d + 0xb))
  let nextRNG : SimpleRNG := SimpleRNG.make newSeed
  let n : Int := asIntN 32 (bigShr newSeed 16)
  (n, nextRNG)

theorem traverseGo_cons {A B : Type} (a : A) (as : List A) (f : A → Option B) :
    Option.traverseGo (a :: as) f =
      Option.map2 (Option.traverseGo as f) (f a) (fun la b => b :: la) := rfl

theorem traverseGo_eq_spec {A B : Type} (ls : List A) (f : A → Option B) :
    Option.traverseGo ls f = traverseSpec ls f := by
  induction ls with
  | nil => rfl
  | cons a as ih =>
    rw [traverseGo_cons, ih]
    cases h1 : traverseSpec as f <;> cases h2 : f a <;>
      simp [traverseSpec, h1, h2, Option.map2, Option.flatMap, Option.map,
        Option.getOrElse, some, none]

theorem traverseSpec_eq_none_iff {A B : Type} (ls : List A) (f : A → Option B) :
    traverseSpec ls f = Option.none ↔ ∃ x ∈ ls, f x = Option.none := by
  induction ls with
  | nil => simp [traverseSpec]
  | cons a as ih =>
    cases h1 : traverseSpec as f <;> cases h2 : f a <;>
      simp [traverseSpec, h1, h2, ← ih]

theorem traverseSpec_map_some {A B : Type} (ls : List A) (f : A → Option B)
    (bs : List B) (h : List.map f ls = List.map Option.some bs) :
    traverseSpec ls f = Option.some bs := by
  induction ls generalizing bs with
  | nil =>
    cases bs with
    | nil => rfl
    | cons b bs' => simp at h
  | cons a as ih =>
    cases bs with
    | nil => simp at h
    | cons b bs' =>
      simp only [List.map, List.cons.injEq] at h
      rw [traverseSpec, ih bs' h.2, h.1]

theorem traverse_of_ne_nil {A B : Type} (ls : List A) (f : A → Option B)
    (h : ls ≠ []) : Option.traverse ls f = Option.traverseGo ls f := by
  cases ls with
  | nil => exact absurd rfl h
  | cons a as => rfl

/-- C1: the claim says every public Option combinator (map, flatMap, filter,
getOrElse, orElse) is total and never raises a fault. In the shipped
`option.ts`, `flatMap`, `filter` and `orElse` throw `Error("Not implemented")`
on every input (here: `Some(1)` with trivial callbacks), while `map` and
`getOrElse` are implemented and total — evaluating the code at the failing
inputs. -/
theorem optionStubCombinatorsThrow :
    OptionBase.flatMap (Option.some 1) (fun a => Option.some a) =
      Except.error "Not implemented" ∧
    OptionBase.filter (Option.some 1) (fun _ => true) =
      Except.error "Not implemented" ∧
    OptionBase.orElse (Option.some 1) (fun _ => Option.some 2) =
      Except.error "Not implemented" ∧
    OptionBase.map (Option.some 1) (fun a => a + 1) = Except.ok (Option.some 2) ∧
    OptionBase.getOrElse (Option.none : Option Nat) (fun _ => 5) = Except.ok 5 :=
  ⟨rfl, rfl, rfl, rfl, rfl⟩

/-- C2: for every `a` and every `f : A → Option B`,
`flatMap(Some(a), f) = f(a)` and `flatMap(None, f) = None`, with `f` invoked
zero times in the `None` case (instrumented invocation count is 0). Proved
against the Exercise 4.1 reference implementation
`this.map(f).getOrElse(() => none())`. -/
theorem flatMap_some_apply_none_skip {A B : Type} (a : A) (f : A → Option B) :
    Option.flatMap (Option.some a) f = f a ∧
    Option.flatMap (Option.none : Option A) f = Option.none ∧
    flatMapCount (Option.none : Option A) f = (Option.none, 0) :=
  ⟨rfl, rfl, rfl⟩

/-- C3: for every `a` and thunk, `getOrElse(Some(a), thunk) = a` with the
thunk invoked zero times, and `getOrElse(None, thunk) = thunk()` with the
thunk invoked exactly once (instrumented invocation counts 0 and 1). -/
theorem getOrElse_lazy {A : Type} (a : A) (t : Unit → A) :
    Option.getOrElse (Option.some a) t = a ∧
    getOrElseCount (Option.some a) t = (a, 0) ∧
    Option.getOrElse (Option.none : Option A) t = t () ∧
    getOrElseCount (Option.none : Option A) t = (t (), 1) :=
  ⟨rfl, rfl, rfl, rfl⟩

/-- C4: for every `a` and `f`, `map(Some(a), f) = Some(f(a))` and
`map(None, f) = None`; consequently `map(opt, x => x) = opt` for every
`opt`. -/
theorem map_spec_and_identity {A B : Type} (a : A) (f : A → B) :
    Option.map (Option.some a) f = Option.some (f a) ∧
    Option.map (Option.none : Option A) f = Option.none ∧
    ∀ o : Option A, Option.map o (fun x => x) = o := by
  refine ⟨rfl, rfl, fun o => ?_⟩
  cases o <;> rfl

/-- C5: for every `a` and alternative thunk, `orElse(Some(a), thunk) = Some(a)`
with the thunk invoked zero times, and `orElse(None, thunk) = thunk()` with the
thunk invoked exactly once (instrumented invocation counts 0 and 1). Proved
against the Exercise 4.1 reference implementation
`this.map(a => some(a)).getOrElse(() => ou())`. -/
theorem orElse_lazy {A : Type} (a : A) (ou : Unit → Option A) :
    Option.orElse (Option.some a) ou = Option.some a ∧
    orElseCount (Option.some a) ou = (Option.some a, 0) ∧
    Option.orElse (Option.none : Option A) ou = ou () ∧
    orElseCount (Option.none : Option A) ou = (ou (), 1) :=
  ⟨rfl, rfl, rfl, rfl⟩

/-- C6: for every `f`, `map2(Right(a), Right(b), f) = Right(f(a, b))`;
otherwise the first encountered `Left`, checking the left operand first:
`map2(Left(e1), eb, f) = Left(e1)` for any `eb`,
`map2(Right(a), Left(e2), f) = Left(e2)`, and in particular
`map2(Left(e1), Left(e2), f) = Left(e1)`. -/
theorem either_map2_first_left {E A B C : Type} (f : A → B → C) :
    (∀ (a : A) (b : B),
      Either.map2 (Either.right a : Either E A) (Either.right b) f =
        Either.right (f a b)) ∧
    (∀ (e1 : E) (eb : Either E B),
      Either.map2 (Either.left e1 : Either E A) eb f = Either.left e1) ∧
    (∀ (a : A) (e2 : E),
      Either.map2 (Either.right a : Either E A) (Either.left e2) f =
        Either.left e2) ∧
    (∀ (e1 e2 : E),
      Either.map2 (Either.left e1 : Either E A)
        (Either.left e2 : Either E B) f = Either.left e1) :=
  ⟨fun _ _ => rfl, fun _ _ => rfl, fun _ _ => rfl, fun _ _ => rfl⟩

/-- C7, counterexample: the claim's biconditional "traverse(xs, f) is None iff
at least one f(x) is None" fails on the empty sequence: `traverse([], f)`
returns `None` by the explicit empty-list branch, yet no element's image is
`None`. -/
theorem traverse_empty_breaks_iff :
    ¬ (Option.traverse ([] : List Nat) (fun n => Option.some n) = Option.none ↔
       ∃ x ∈ ([] : List Nat), (fun n => Option.some n) x = Option.none) := by
  intro h
  obtain ⟨x, hx, -⟩ := h.mp rfl
  simp at hx

/-- C7, amended: for every nonempty sequence `xs` and every
`f : A → Option B`, `traverse(xs, f)` is `None` iff at least one `f(x)` is
`None`, and whenever the images `map f xs` are the `Some`-wrappings of a
sequence `bs`, `traverse(xs, f) = Some(bs)` — the transformed sequence in
original element order. (On the empty sequence the result is `None` by
design.) -/
theorem traverse_nonempty_contract {A B : Type} (ls : List A)
    (f : A → Option B) (h : ls ≠ []) :
    (Option.traverse ls f = Option.none ↔ ∃ x ∈ ls, f x = Option.none) ∧
    (∀ bs : List B, List.map f ls = List.map Option.some bs →
      Option.traverse ls f = Option.some bs) := by
  rw [traverse_of_ne_nil ls f h, traverseGo_eq_spec]
  exact ⟨traverseSpec_eq_none_iff ls f,
    fun bs hb => traverseSpec_map_some ls f bs hb⟩

/-- C7, witness: the amended contract applied to the concrete nonempty input
`[1, 2]` with `f = n => Some(n + 1)` yields `Some([2, 3])`. -/
theorem traverse_nonempty_contract_witness :
    Option.traverse [1, 2] (fun n : Nat => Option.some (n + 1)) =
      Option.some [2, 3] :=
  (traverse_nonempty_contract [1, 2] (fun n : Nat => Option.some (n + 1))
    (by simp)).2 [2, 3] rfl

/-- C8, counterexample: the claim says the Either-typed `sequence` and
`traverse` yield the failure case on the empty input sequence, but the
Exercise 4.7 implementations have no empty-list branch and return the fold's
seed `Right(List())` — the success case holding an empty sequence. -/
theorem either_sequence_empty_right_nil :
    Either.sequence ([] : List (Either String Nat)) = Either.right [] ∧
    Either.traverse ([] : List Nat)
      (fun n => (Either.right n : Either String Nat)) = Either.right [] :=
  ⟨rfl, rfl⟩

/-- C8, amended: on the empty input sequence, the Option-typed `sequence` and
`traverse` yield `None` (the absent case), while the Either-typed `sequence`
and `traverse` yield `Right` of the empty sequence (the success case), via the
fold's seed. -/
theorem empty_sequence_policy (E A B : Type) (f : A → Option B)
    (g : A → Either E B) :
    Option.sequence ([] : List (Option A)) = Option.none ∧
    Option.traverse ([] : List A) f = Option.none ∧
    Either.sequence ([] : List (Either E A)) = Either.right [] ∧
    Either.traverse ([] : List A) g = Either.right [] :=
  ⟨rfl, rfl, rfl, rfl⟩

/-- C9: for every thunk `f`, when `f` returns normally with `a`, `Try(f)` is
`Some(a)` in the Option form and `Right(a)` in the Either form; when `f`
raises a fault `t`, the Option form returns `None` and the Either form returns
a `Left` holding an `Error` whose message is the fault's descriptive
information (the `Error`'s own message, or the string form of a non-`Error`
thrown value wrapped via `new Error(e)`). -/
theorem attempt_spec {A : Type} (f : Unit → Except Thrown A) :
    (∀ a : A, f () = Except.ok a →
      Option.Try f = Option.some a ∧ Either.Try f = Either.right a) ∧
    (∀ t : Thrown, f () = Except.error t →
      Option.Try f = Option.none ∧
      Either.Try f = Either.left (Error.mk t.info)) := by
  constructor
  · intro a h
    constructor <;> simp [Option.Try, Either.Try, h, some, right]
  · intro t h
    cases t <;> constructor <;>
      simp [Option.Try, Either.Try, h, none, left, Thrown.info]

/-- C9, witness: `attempt_spec` applied to the concrete thunks returning `10`
and throwing a non-`Error` value `"42"`. -/
theorem attempt_spec_witness :
    Option.Try (fun _ => (Except.ok 10 : Except Thrown Nat)) = Option.some 10 ∧
    Either.Try (fun _ => (Except.error (Thrown.nonError "42") :
      Except Thrown Nat)) = Either.left (Error.mk "42") :=
  ⟨((attempt_spec (fun _ => (Except.ok 10 : Except Thrown Nat))).1 10 rfl).1,
   ((attempt_spec (fun _ => (Except.error (Thrown.nonError "42") :
      Except Thrown Nat))).2 (Thrown.nonError "42") rfl).2⟩

theorem nextInt_eq (s : Int) :
    SimpleRNG.nextInt ⟨s⟩ =
      (asIntN 32 (bigShr (bigAnd48 (asIntN 64 (s * 0x5deece66d + 0xb))) 16),
       ⟨asIntN 64 (bigAnd48 (asIntN 64 (s * 0x5deece66d + 0xb)))⟩) := rfl

theorem bigAnd48_bounds (x : Int) : 0 ≤ bigAnd48 x ∧ bigAnd48 x < 2 ^ 48 := by
  unfold bigAnd48
  constructor
  · exact Int.emod_nonneg x (by norm_num)
  · exact Int.emod_lt_of_pos x (by norm_num)

theorem asIntN64_id (x : Int) (h0 : 0 ≤ x) (h1 : x < 2 ^ 48) :
    asIntN 64 x = x := by
  unfold asIntN
  norm_num at h1 ⊢
  omega

theorem asIntN32_bounds (x : Int) :
    -(2 ^ 31) ≤ asIntN 32 x ∧ asIntN 32 x ≤ 2 ^ 31 - 1 := by
  unfold asIntN
  norm_num
  omega

/-- C10: `nextInt` is deterministic — two `SimpleRNG`s with equal seeds
return equal (value, successor) pairs — and preserves the seed invariant:
the successor's seed lies in `[0, 2^48)` (the result of the 48-bit mask,
unchanged by the constructor's 64-bit wrap), and the returned integer lies in
the signed 32-bit range `[-2^31, 2^31 - 1]` (the result of
`BigInt.asIntN(32, ·)`). -/
theorem simpleRNG_nextInt_bounds (r1 r2 : SimpleRNG) (h : r1.seed = r2.seed) :
    r1.nextInt = r2.nextInt ∧
    0 ≤ r1.nextInt.2.seed ∧ r1.nextInt.2.seed < 2 ^ 48 ∧
    -(2 ^ 31) ≤ r1.nextInt.1 ∧ r1.nextInt.1 ≤ 2 ^ 31 - 1 := by
  obtain ⟨s1⟩ := r1
  obtain ⟨s2⟩ := r2
  simp only [SimpleRNG.mk.injEq] at *
  subst h
  have hmask := bigAnd48_bounds (asIntN 64 (s1 * 0x5deece66d + 0xb))
  have hid := asIntN64_id _ hmask.1 hmask.2
  have hout := asIntN32_bounds
    (bigShr (bigAnd48 (asIntN 64 (s1 * 0x5deece66d + 0xb))) 16)
  refine ⟨rfl, ?_, ?_, ?_, ?_⟩
  · show 0 ≤ asIntN 64 (bigAnd48 (asIntN 64 (s1 * 0x5deece66d + 0xb)))
    rw [hid]
    exact hmask.1
  · show asIntN 64 (bigAnd48 (asIntN 64 (s1 * 0x5deece66d + 0xb))) < 2 ^ 48
    rw [hid]
    exact hmask.2
  · exact hout.1
  · exact hout.2

/-- C10, witness: `simpleRNG_nextInt_bounds` applied to the concrete
generator with seed 42. -/
theorem simpleRNG_nextInt_bounds_witness :
    (SimpleRNG.mk 42).nextInt = (SimpleRNG.mk 42).nextInt ∧
    0 ≤ (SimpleRNG.mk 42).nextInt.2.seed ∧
    (SimpleRNG.mk 42).nextInt.2.seed < 2 ^ 48 ∧
    -(2 ^ 31) ≤ (SimpleRNG.mk 42).nextInt.1 ∧
    (SimpleRNG.mk 42).nextInt.1 ≤ 2 ^ 31 - 1 :=
  simpleRNG_nextInt_bounds (SimpleRNG.mk 42) (SimpleRNG.mk 42) rfl

end FPTS
